import Mathlib

/-!
# Verification of the PFM query-classification and intent-routing pipeline

Shallow embedding of the query classification, intent routing, context
rewriting and goal-parameter extraction logic of the Personal Finance
Manager repository (`agents/financial_advisor_agent.py`,
`agents/goal_planning_agent.py`, `utils/context_management.py`).

Python strings are modelled as `List Char`; Python `float` values that
arise here (amounts, percentages) are modelled as exact rationals
(`PyFloat`: every value the code manipulates is decimal and exactly
representable, no floating-point rounding is observable); Python `re`
patterns are transcribed into a small backtracking regular-expression
engine (`RE` / `reSearch`) whose semantics mirror `re.search`: leftmost
match, greedy/lazy quantifiers, first-alternative preference, single
capture group.  Calls to external collaborators (the DekaLLM completion
service, the CSV-backed data store, the specialist agents) are passed in
as explicit oracle parameters; an oracle returning `Except.error e`
models the Python call raising an exception with text `e`.
-/

namespace PFM

/-- Python strings are modelled as lists of characters. -/
abbrev PyStr := List Char

/-- Convert a Lean string literal to the `PyStr` model. -/
def str (s : String) : PyStr := s.data

/-- The characters Python's `str.strip()` / `str.split()` treat as whitespace. -/
def isPySpace (c : Char) : Bool :=
  c == ' ' || c == '\t' || c == '\n' || c == '\r' || c == '\x0b' || c == '\x0c'

/-- Python `str.lower()` (ASCII case mapping, which covers every string the
pipeline manipulates). -/
def lowerS (s : PyStr) : PyStr := s.map Char.toLower

/-- Python `str.upper()` (ASCII case mapping). -/
def upperS (s : PyStr) : PyStr := s.map Char.toUpper

/-- Python `str.strip()`: remove leading and trailing whitespace. -/
def stripS (s : PyStr) : PyStr :=
  ((s.dropWhile isPySpace).reverse.dropWhile isPySpace).reverse

/-- Python `needle in haystack` (substring containment). -/
def containsSub (hay needle : PyStr) : Bool :=
  match hay with
  | [] => needle.isEmpty
  | _ :: t => needle.isPrefixOf hay || containsSub t needle

/-- Helper for `splitWs`: `acc` is the current word, reversed. -/
def splitWsAux : PyStr → PyStr → List PyStr
  | [], acc => if acc.isEmpty then [] else [acc.reverse]
  | c :: rest, acc =>
    if isPySpace c then
      if acc.isEmpty then splitWsAux rest []
      else acc.reverse :: splitWsAux rest []
    else splitWsAux rest (c :: acc)

/-- Python `str.split()` with no argument: split on runs of whitespace,
discarding empty pieces. -/
def splitWs (s : PyStr) : List PyStr := splitWsAux s []

/-- Python `str.split(sep)` for a single-character separator: keeps empty
pieces, splits at every occurrence. -/
def splitOnChar (c : Char) : PyStr → List PyStr
  | [] => [[]]
  | x :: xs =>
    if x == c then [] :: splitOnChar c xs
    else
      match splitOnChar c xs with
      | [] => [[x]]
      | h :: t => (x :: h) :: t

/-- Numeric value of a digit string (no sign handling needed here). -/
def natOfDigits (s : PyStr) : Nat :=
  s.foldl (fun acc c => acc * 10 + (c.toNat - '0'.toNat)) 0

/-- Python `int(s)` restricted to the strings that reach it in this code
(pure digit strings captured by `\d` patterns); anything else raises
`ValueError`, modelled as `none`. -/
def pyInt (s : PyStr) : Option Nat :=
  if s ≠ [] ∧ s.all Char.isDigit then some (natOfDigits s) else none

/-- Fueled Euclidean gcd (kernel-evaluable; Euclid terminates in at most
`b` steps). -/
def gcdAux : Nat → Nat → Nat → Nat
  | 0, a, _ => a
  | f + 1, a, b => if b == 0 then a else gcdAux f b (a % b)

/-- Greatest common divisor. -/
def natGcd (a b : Nat) : Nat := gcdAux (b + 1) a b

/-- Every `float` this pipeline manipulates is an exact decimal
(amounts, percentages); model them as normalized exact rationals with a
kernel-evaluable representation. -/
structure PyFloat where
  num : Int
  den : Nat
deriving DecidableEq

namespace PyFloat

/-- Normalizing constructor (`d` is always positive at use sites). -/
def norm (n : Int) (d : Nat) : PyFloat :=
  let g := natGcd n.natAbs d
  if g == 0 then ⟨n, d⟩ else ⟨n / g, d / g⟩

/-- The float of a natural number. -/
def ofNat (n : Nat) : PyFloat := ⟨n, 1⟩

/-- Multiply by a natural number (the `* 1000` / `* 1000000` of the
amount extractor). -/
def mulNat (x : PyFloat) (m : Nat) : PyFloat := norm (x.num * m) x.den

end PyFloat

/-- Python `float(s)` for the numeral shapes the extraction regexes
capture (digits with at most one decimal point, commas already
stripped). -/
def parseDec (s : PyStr) : PyFloat :=
  match splitOnChar '.' s with
  | [w] => ⟨natOfDigits w, 1⟩
  | [w, f] => PyFloat.norm (natOfDigits w * 10 ^ f.length + natOfDigits f) (10 ^ f.length)
  | _ => ⟨0, 1⟩

/-- Characters counting as word characters for `\b` and `\w`. -/
def isWordChar (c : Char) : Bool := c.isAlphanum || c == '_'

/-! ## A small backtracking regex engine

Transcription target for the `re` patterns in the source.  Semantics of
`mrun` follow CPython `re`: greedy `*`/`?`/`{m,n}`, lazy `*?`,
left-to-right alternative preference, backtracking search; `reSearch`
tries successive start positions like `re.search`. -/

/-- Regular expression abstract syntax. `grp` marks the single capture
group each transcribed pattern has. -/
inductive RE where
  | eps
  | cls (p : Char → Bool)
  | seq (a b : RE)
  | alt (a b : RE)
  | star (a : RE)
  | lazyStar (a : RE)
  | opt (a : RE)
  | rep (lo hi : Nat) (a : RE)
  | grp (a : RE)
  | bnd
  | eos

namespace RE

/-- Literal character. -/
def chr (c : Char) : RE := cls (· == c)

/-- Literal string. -/
def lit (s : String) : RE := s.data.foldr (fun c r => seq (chr c) r) eps

/-- `\d` -/
def digit : RE := cls Char.isDigit

/-- `\s` -/
def space : RE := cls isPySpace

/-- `\w` -/
def wordc : RE := cls isWordChar

/-- `.` (any character except newline) -/
def dot : RE := cls (· ≠ '\n')

/-- `a+` -/
def plus (a : RE) : RE := seq a (star a)

/-- Chain a list of regexes in sequence. -/
def cat (l : List RE) : RE := l.foldr seq eps

end RE

/-- Match result: end position and capture-group span. -/
structure MRes where
  endPos : Nat
  group : Option (Nat × Nat)
deriving DecidableEq

/-- Backtracking matcher in continuation-passing style.  `s` is the
subject, `i` the current position, `g` the capture-group span recorded
so far, `k` the continuation.  `fuel` bounds recursion depth; every
search below is run with fuel ample for its subject. -/
def mrun (s : PyStr) : Nat → RE → Nat → Option (Nat × Nat) →
    (Nat → Option (Nat × Nat) → Option MRes) → Option MRes
  | 0, _, _, _, _ => none
  | fuel + 1, re, i, g, k =>
    match re with
    | .eps => k i g
    | .cls p =>
      match s.get? i with
      | some c => if p c then k (i + 1) g else none
      | none => none
    | .seq a b => mrun s fuel a i g fun j g' => mrun s fuel b j g' k
    | .alt a b => (mrun s fuel a i g k).orElse fun _ => mrun s fuel b i g k
    | .star a =>
      (mrun s fuel a i g fun j g' =>
        if j == i then none else mrun s fuel (.star a) j g' k).orElse
        fun _ => k i g
    | .lazyStar a =>
      (k i g).orElse fun _ =>
        mrun s fuel a i g fun j g' =>
          if j == i then none else mrun s fuel (.lazyStar a) j g' k
    | .opt a => (mrun s fuel a i g k).orElse fun _ => k i g
    | .rep lo hi a =>
      match lo, hi with
      | l + 1, h + 1 => mrun s fuel a i g fun j g' => mrun s fuel (.rep l h a) j g' k
      | l + 1, 0 => mrun s fuel a i g fun j g' => mrun s fuel (.rep l 0 a) j g' k
      | 0, h + 1 =>
        (mrun s fuel a i g fun j g' =>
          if j == i then none else mrun s fuel (.rep 0 h a) j g' k).orElse
          fun _ => k i g
      | 0, 0 => k i g
    | .grp a => mrun s fuel a i g fun j _ => k j (some (i, j))
    | .bnd =>
      let before := match i with
        | 0 => false
        | j + 1 => match s.get? j with
          | some c => isWordChar c
          | none => false
      let after := match s.get? i with
        | some c => isWordChar c
        | none => false
      if before != after then k i g else none
    | .eos =>
      if i == s.length || (i + 1 == s.length && s.get? i == some '\n')
      then k i g else none

/-- Fuel used for every search: generous bound on backtracking depth for
the transcribed patterns. -/
def searchFuel (s : PyStr) : Nat := 60 * (s.length + 3) + 400

/-- Try to match `re` anchored at position `i` (like `re.match` at `i`). -/
def matchAt (re : RE) (s : PyStr) (i : Nat) : Option MRes :=
  mrun s (searchFuel s) re i none fun j g => some ⟨j, g⟩

/-- Slice `s[a:b]`. -/
def slice (s : PyStr) (a b : Nat) : PyStr := (s.drop a).take (b - a)

/-- `re.search`: try successive start positions; `tries` counts the
positions left to try (structural recursion so the kernel can
evaluate).  Returns the start position together with the match. -/
def reSearchFrom (re : RE) (s : PyStr) : Nat → Nat → Option (Nat × MRes)
  | 0, _ => none
  | tries + 1, i =>
    match matchAt re s i with
    | some r => some (i, r)
    | none => reSearchFrom re s tries (i + 1)

/-- `re.search(pattern, s)`: start positions `0, 1, …, s.length`. -/
def reSearch (re : RE) (s : PyStr) : Option (Nat × MRes) :=
  reSearchFrom re s (s.length + 1) 0

/-- Group-1 text of `re.search(pattern, s)` (patterns with one group). -/
def reSearchGrp (re : RE) (s : PyStr) : Option PyStr :=
  match reSearch re s with
  | some (_, ⟨_, some (a, b)⟩) => some (slice s a b)
  | some (_, ⟨_, none⟩) => none
  | none => none

/-- Whole-match text (`match.group(0)`) of `re.search(pattern, s)`. -/
def reSearchText (re : RE) (s : PyStr) : Option PyStr :=
  (reSearch re s).map fun (i, r) => slice s i r.endPos

/-- Did `re.search` succeed at all (for group-less patterns)? -/
def reTest (re : RE) (s : PyStr) : Bool := (reSearch re s).isSome

/-- `re.search(pattern, s, re.IGNORECASE)` for patterns whose literals are
lower-case: search the lower-cased subject, slice the group from the
original subject (as `match.group(1)` does). -/
def reSearchGrpIC (re : RE) (s : PyStr) : Option PyStr :=
  match reSearch re (lowerS s) with
  | some (_, ⟨_, some (a, b)⟩) => some (slice s a b)
  | some (_, ⟨_, none⟩) => none
  | none => none

/-- `re.match(pattern, s)` viewed as a boolean (anchored at 0, prefix
match). -/
def reMatchTest (re : RE) (s : PyStr) : Bool := (matchAt re s 0).isSome

/-! ## Calendar dates (`datetime`) -/

/-- A `datetime.datetime` value, restricted to its date part (the code
only ever formats dates). -/
structure Date where
  year : Nat
  month : Nat
  day : Nat
deriving DecidableEq

/-- Gregorian leap year (as `calendar.isleap` / `datetime`). -/
def isLeap (y : Nat) : Bool := y % 4 == 0 && (y % 100 != 0 || y % 400 == 0)

/-- Days in a month. -/
def daysInMonth (y m : Nat) : Nat :=
  if m == 2 then (if isLeap y then 29 else 28)
  else if m == 4 || m == 6 || m == 9 || m == 11 then 30
  else 31

/-- `datetime(year, month, day)`: `none` models the constructor raising
`ValueError` (`MINYEAR = 1`, `MAXYEAR = 9999`, day out of range …). -/
def mkDatetime (y m d : Nat) : Option Date :=
  if 1 ≤ y ∧ y ≤ 9999 ∧ 1 ≤ m ∧ m ≤ 12 ∧ 1 ≤ d ∧ d ≤ daysInMonth y m
  then some ⟨y, m, d⟩ else none

/-- `dt - timedelta(days=1)`. -/
def dateMinusOneDay (d : Date) : Date :=
  if d.day > 1 then ⟨d.year, d.month, d.day - 1⟩
  else if d.month > 1 then ⟨d.year, d.month - 1, daysInMonth d.year (d.month - 1)⟩
  else ⟨d.year - 1, 12, 31⟩

/-- The source's last-day-of-month computation:
`datetime(y+1, 1, 1) - timedelta(days=1)` when `m == 12`, else
`datetime(y, m+1, 1) - timedelta(days=1)`. -/
def monthEnd (y m : Nat) : Option Date :=
  if m == 12 then (mkDatetime (y + 1) 1 1).map dateMinusOneDay
  else (mkDatetime y (m + 1) 1).map dateMinusOneDay

/-- Decimal digits of `n` (structural, kernel-evaluable). -/
def natDigitsAux : Nat → Nat → PyStr
  | 0, _ => []
  | fuel + 1, n =>
    if n < 10 then [Char.ofNat (48 + n)]
    else natDigitsAux fuel (n / 10) ++ [Char.ofNat (48 + n % 10)]

/-- Decimal representation of `n`. -/
def natDigits (n : Nat) : PyStr := natDigitsAux (n + 1) n

/-- Zero-pad to width `w` (as `%02d` / `%04d`). -/
def padNum (w n : Nat) : PyStr :=
  let ds := natDigits n
  List.replicate (w - ds.length) '0' ++ ds

/-- `date_obj.strftime("%m/%d/%Y")`. -/
def strftimeMDY (d : Date) : PyStr :=
  padNum 2 d.month ++ '/' :: (padNum 2 d.day ++ '/' :: padNum 4 d.year)

/-! ### `datetime.strptime`

CPython's `_strptime` compiles a format into a regex and requires a full
match of the data string; the field sub-regexes are
`%m = 1[0-2]|0[1-9]|[1-9]`, `%d = 3[01]|[12]\d|0[1-9]|[1-9]`,
`%Y = \d\d\d\d`, `%B` the full month names (case-insensitive), and a
whitespace run in the format matches one-or-more whitespace.  The
resulting `datetime` construction validates the calendar date. -/

/-- Acceptance of a complete string by the `%m` field regex. -/
def monthField (s : PyStr) : Option Nat :=
  let v := natOfDigits s
  if s.all Char.isDigit ∧ 1 ≤ v ∧ v ≤ 12 ∧
     (s.length = 1 ∨ (s.length = 2 ∧ (10 ≤ v ∨ s.head? = some '0')))
  then some v else none

/-- Acceptance of a complete string by the `%d` field regex. -/
def dayField (s : PyStr) : Option Nat :=
  let v := natOfDigits s
  if s.all Char.isDigit ∧ 1 ≤ v ∧ v ≤ 31 ∧
     (s.length = 1 ∨ (s.length = 2 ∧ (10 ≤ v ∨ s.head? = some '0')))
  then some v else none

/-- Acceptance of a complete string by the `%Y` field regex. -/
def yearField (s : PyStr) : Option Nat :=
  if s.length = 4 ∧ s.all Char.isDigit then some (natOfDigits s) else none

/-- `datetime.strptime(mS/dS/yS, "%m/%d/%Y")` given the three fields. -/
def strptimeMDYparts (mS dS yS : PyStr) : Option Date :=
  match monthField mS, dayField dS, yearField yS with
  | some m, some d, some y => mkDatetime y m d
  | _, _, _ => none

/-- `datetime.strptime(s, "%m/%d/%Y")`. -/
def strptimeMDY (s : PyStr) : Option Date :=
  match splitOnChar '/' s with
  | [mS, dS, yS] => strptimeMDYparts mS dS yS
  | _ => none

/-- The twelve lower-case month names with their numbers (the
`month_to_num` tables of the source, and `%B`'s vocabulary). -/
def monthNames : List (PyStr × Nat) :=
  [(str "january", 1), (str "february", 2), (str "march", 3),
   (str "april", 4), (str "may", 5), (str "june", 6),
   (str "july", 7), (str "august", 8), (str "september", 9),
   (str "october", 10), (str "november", 11), (str "december", 12)]

/-- Parse `%B` at the front of an already lower-cased string. -/
def parseMonthName (sL : PyStr) : Option (Nat × PyStr) :=
  monthNames.findSome? fun p =>
    if p.1.isPrefixOf sL then some (p.2, sL.drop p.1.length) else none

/-- Consume `\s+` (one or more whitespace characters). -/
def skipWs1 (s : PyStr) : Option PyStr :=
  match s with
  | c :: rest => if isPySpace c then some (rest.dropWhile isPySpace) else none
  | [] => none

/-- One `%d` candidate of width `dlen` at the front of `r`, returning the
day value and the rest. -/
def dayCandidate (dlen : Nat) (r : PyStr) : Option (Nat × PyStr) :=
  let dS := r.take dlen
  let v := natOfDigits dS
  if dS.length = dlen ∧ dS.all Char.isDigit ∧ 1 ≤ v ∧ v ≤ 31 ∧
     (dlen = 1 → v ≤ 9) ∧ (dlen = 2 → (10 ≤ v ∨ dS.head? = some '0'))
  then some (v, r.drop dlen) else none

/-- `datetime.strptime(s, "%B %d, %Y")` (the regex alternation for `%d`
tries the two-digit shapes before the one-digit shape). -/
def strptimeBdY (s0 : PyStr) : Option Date :=
  let s := lowerS s0
  (parseMonthName s).bind fun (m, r1) =>
  (skipWs1 r1).bind fun r2 =>
    let rest : Nat × PyStr → Option Date := fun (v, r) =>
      match r with
      | ',' :: r3 =>
        (skipWs1 r3).bind fun r4 =>
          if r4.length = 4 ∧ r4.all Char.isDigit
          then mkDatetime (natOfDigits r4) m v else none
      | _ => none
    ((dayCandidate 2 r2).bind rest).orElse fun _ => (dayCandidate 1 r2).bind rest

/-- `datetime.strptime(s, "%B %Y %d")`. -/
def strptimeBYd (s0 : PyStr) : Option Date :=
  let s := lowerS s0
  (parseMonthName s).bind fun (m, r1) =>
  (skipWs1 r1).bind fun r2 =>
    let yS := r2.take 4
    if yS.length = 4 ∧ yS.all Char.isDigit then
      (skipWs1 (r2.drop 4)).bind fun r3 =>
        let rest : Nat × PyStr → Option Date := fun (v, r) =>
          if r.isEmpty then mkDatetime (natOfDigits yS) m v else none
        ((dayCandidate 2 r3).bind rest).orElse fun _ => (dayCandidate 1 r3).bind rest
    else none

/-- Fueled worker for `subOrdinals`. -/
def subOrdinalsAux : Nat → PyStr → PyStr
  | 0, s => s
  | fuel + 1, s =>
    match s with
    | [] => []
    | c :: rest =>
      if c.isDigit then
        let run := c :: rest.takeWhile Char.isDigit
        let after := rest.drop (run.length - 1)
        let after' :=
          if (str "st").isPrefixOf after || (str "nd").isPrefixOf after ||
             (str "rd").isPrefixOf after || (str "th").isPrefixOf after
          then after.drop 2 else after
        run ++ subOrdinalsAux fuel after'
      else c :: subOrdinalsAux fuel rest

/-- `re.sub(r'(\d+)(?:st|nd|rd|th)', r'\1', s)`: strip ordinal suffixes
immediately following a digit run (left-to-right, non-overlapping). -/
def subOrdinals (s : PyStr) : PyStr := subOrdinalsAux (s.length + 1) s

/-- Literal regex from a `PyStr`. -/
def RE.litL (l : PyStr) : RE := l.foldr (fun c r => RE.seq (RE.chr c) r) RE.eps

/-! ## `GoalPlanningAgent._extract_goal_parameters`

Transcription of the regex-fallback parameter extractor
(`agents/goal_planning_agent.py`, `_extract_goal_parameters`).  Each
`RE` below is annotated with the source pattern it transcribes.
`datetime.now()` is passed in as the explicit parameter `today`. -/

namespace GoalPlanning

open RE

/-- The result dictionary `params` of `_extract_goal_parameters`: every
key is optional (absent = not extracted).  The fields do not interact in
the source (each is extracted independently, with `goal_name` set
alongside `goal_type`), so they are computed independently here. -/
structure GoalParams where
  goal_type : Option PyStr
  goal_name : Option PyStr
  target_amount : Option PyFloat
  target_date : Option PyStr
  current_savings : Option PyFloat
  priority : Option PyStr
deriving DecidableEq

/-! ### Goal type: tier 1, the `specific_phrases` dict (insertion order) -/

-- retirement (?:plan|fund|savings)  etc.
/-- The `specific_phrases` pattern table mapping phrase regexes to
canonical goal types, in dict insertion order. -/
def specific_phrases : List (RE × PyStr) :=
  [ (lit "emergency fund", str "Emergency Fund"),
    (cat [lit "retirement ", alt (lit "plan") (alt (lit "fund") (lit "savings"))], str "Retirement"),
    (cat [lit "college ", alt (lit "fund") (lit "savings")], str "Education"),
    (cat [lit "education ", alt (lit "fund") (lit "savings")], str "Education"),
    (cat [lit "house ", alt (lit "fund") (alt (lit "savings") (lit "down payment"))], str "Home Purchase"),
    (cat [lit "home ", alt (lit "fund") (alt (lit "savings") (lit "down payment"))], str "Home Purchase"),
    (cat [lit "vacation ", alt (lit "fund") (lit "savings")], str "Travel"),
    (cat [lit "travel ", alt (lit "fund") (lit "savings")], str "Travel"),
    (cat [lit "car ", alt (lit "fund") (lit "savings")], str "Car Purchase"),
    (cat [lit "vehicle ", alt (lit "fund") (lit "savings")], str "Car Purchase"),
    (cat [lit "wedding ", alt (lit "fund") (lit "savings")], str "Wedding"),
    (cat [lit "medical ", alt (lit "fund") (alt (lit "savings") (lit "expenses"))], str "Medical Expenses"),
    (cat [lit "health ", alt (lit "fund") (lit "savings")], str "Medical Expenses") ]

/-- The `goal_types` canonical list (tier 2 checks `\b<type>\b` on the
lower-cased query, in this order). -/
def goal_types : List PyStr :=
  [str "Retirement", str "Home Purchase", str "Education", str "Emergency Fund",
   str "Travel", str "Car Purchase", str "Wedding", str "Medical Expenses"]

/-- Tier 3: the `if/elif` substring heuristics, in source order. -/
def goalTypeTier3 (qL : PyStr) : Option PyStr :=
  if containsSub qL (str "emergency") || containsSub qL (str "fund") then
    some (str "Emergency Fund")
  else if containsSub qL (str "home") || containsSub qL (str "house") then
    some (str "Home Purchase")
  else if containsSub qL (str "education") || containsSub qL (str "college") ||
          containsSub qL (str "school") then
    some (str "Education")
  else if containsSub qL (str "car") || containsSub qL (str "vehicle") ||
          containsSub qL (str "auto") then
    some (str "Car Purchase")
  else if containsSub qL (str "travel") || containsSub qL (str "vacation") ||
          containsSub qL (str "trip") then
    some (str "Travel")
  else if containsSub qL (str "wedding") || containsSub qL (str "marriage") then
    some (str "Wedding")
  else if containsSub qL (str "medical") || containsSub qL (str "health") ||
          containsSub qL (str "doctor") then
    some (str "Medical Expenses")
  else if containsSub qL (str "retire") then
    some (str "Retirement")
  else none

/-- The three goal-type tiers, first hit wins (`qL` is the lower-cased
query, as every tier matches against `query.lower()`). -/
def extractGoalType (qL : PyStr) : Option PyStr :=
  match specific_phrases.findSome? fun p => if reTest p.1 qL then some p.2 else none with
  | some t => some t
  | none =>
    match goal_types.find? fun gt => reTest (cat [bnd, litL (lowerS gt), bnd]) qL with
    | some gt => some gt
    | none => goalTypeTier3 qL

/-! ### Target amount -/

-- (\d+[,\d]*(?:\.\d+)?)   (the numeral group shared by several patterns)
/-- Shared numeral group shape. -/
def numGrp : RE :=
  grp (cat [plus digit, star (cls fun c => c == ',' || c.isDigit),
            opt (cat [chr '.', plus digit])])

-- \$\s*(\d{1,3}(?:,\d{3})*(?:\.\d{1,2})?)
/-- Amount pattern 1. -/
def amtP1 : RE :=
  cat [chr '$', star space,
       grp (cat [rep 1 3 digit, star (cat [chr ',', rep 3 3 digit]),
                 opt (cat [chr '.', rep 1 2 digit])])]

-- (\d{1,3}(?:,\d{3})*(?:\.\d{1,2})?)(?:\s*dollars|\s*USD)
/-- Amount pattern 2 (note the upper-case `USD`, matched against the
lower-cased query). -/
def amtP2 : RE :=
  cat [grp (cat [rep 1 3 digit, star (cat [chr ',', rep 3 3 digit]),
                 opt (cat [chr '.', rep 1 2 digit])]),
       alt (cat [star space, lit "dollars"]) (cat [star space, lit "USD"])]

-- (\d+)k
/-- Amount pattern 3 (the `'k' in pattern` multiplier applies). -/
def amtP3 : RE := cat [grp (plus digit), chr 'k']

-- (\d+)\s*thousand
/-- Amount pattern 4 (`'thousand' in pattern` multiplier). -/
def amtP4 : RE := cat [grp (plus digit), star space, lit "thousand"]

-- (\d+(?:\.\d+)?)\s*million
/-- Amount pattern 5 (`'million' in pattern` multiplier). -/
def amtP5 : RE :=
  cat [grp (cat [plus digit, opt (cat [chr '.', plus digit])]), star space, lit "million"]

-- save\s*(?:an?\s*)?(?:total\s*)?(?:of\s*)?[^0-9]*(\d+[,\d]*(?:\.\d+)?)
/-- Amount pattern 6. -/
def amtP6 : RE :=
  cat [lit "save", star space, opt (cat [chr 'a', opt (chr 'n'), star space]),
       opt (cat [lit "total", star space]), opt (cat [lit "of", star space]),
       star (cls fun c => !c.isDigit), numGrp]

-- goal(?:\s*of)?\s*\$?\s*(\d+[,\d]*(?:\.\d+)?)
/-- Amount pattern 7. -/
def amtP7 : RE :=
  cat [lit "goal", opt (cat [star space, lit "of"]), star space,
       opt (chr '$'), star space, numGrp]

-- (\d+[,\d]*(?:\.\d+)?)\s*dollars
/-- Amount pattern 8. -/
def amtP8 : RE := cat [numGrp, star space, lit "dollars"]

-- (\d+[,\d]*(?:\.\d+)?)(?:\s*dollar|\s*usd)
/-- Amount pattern 9. -/
def amtP9 : RE :=
  cat [numGrp, alt (cat [star space, lit "dollar"]) (cat [star space, lit "usd"])]

/-- `amount_patterns` in source order, paired with the multiplier the
source selects by testing `'k' in pattern` / `'thousand' in pattern` /
`'million' in pattern` on the pattern text (patterns 3, 4, 5
respectively; no other pattern text contains those substrings). -/
def amount_patterns : List (RE × Nat) :=
  [(amtP1, 1), (amtP2, 1), (amtP3, 1000), (amtP4, 1000), (amtP5, 1000000),
   (amtP6, 1), (amtP7, 1), (amtP8, 1), (amtP9, 1)]

/-- The target-amount loop: ordered patterns against the lower-cased
query, first match wins, commas stripped from the captured numeral
before `float` conversion, then the pattern's multiplier. -/
def extractTargetAmount (qL : PyStr) : Option PyFloat :=
  amount_patterns.findSome? fun p =>
    (reSearchGrp p.1 qL).map fun g => (parseDec (g.filter (· != ','))).mulNat p.2

/-! ### Target date -/

-- (?:st|nd|rd|th)
/-- Ordinal suffix alternation. -/
def ordSuf : RE := alt (lit "st") (alt (lit "nd") (alt (lit "rd") (lit "th")))

-- \d{1,2}/\d{1,2}/\d{2,4}
/-- Slash-date group body. -/
def slashDateBody : RE :=
  cat [rep 1 2 digit, chr '/', rep 1 2 digit, chr '/', rep 2 4 digit]

-- by\s*(\d{1,2}/\d{1,2}/\d{2,4})
/-- Date pattern 1. -/
def dateP1 : RE := cat [lit "by", star space, grp slashDateBody]

-- till\s*(\d{1,2}/\d{1,2}/\d{2,4})
/-- Date pattern 2. -/
def dateP2 : RE := cat [lit "till", star space, grp slashDateBody]

-- until\s*(\d{1,2}/\d{1,2}/\d{2,4})
/-- Date pattern 3. -/
def dateP3 : RE := cat [lit "until", star space, grp slashDateBody]

-- by\s*(\w+\s+\d{1,2}(?:st|nd|rd|th)?,?\s*\d{4})
/-- Date pattern 4. -/
def dateP4 : RE :=
  cat [lit "by", star space,
       grp (cat [plus wordc, plus space, rep 1 2 digit, opt ordSuf,
                 opt (chr ','), star space, rep 4 4 digit])]

-- by\s*(\w+\s+\d{4})
/-- Date pattern 5. -/
def dateP5 : RE :=
  cat [lit "by", star space, grp (cat [plus wordc, plus space, rep 4 4 digit])]

-- by\s*(?:the\s*)?end\s*of\s*(\w+(?:\s+\d{4})?)
/-- Date pattern 6. -/
def dateP6 : RE :=
  cat [lit "by", star space, opt (cat [lit "the", star space]),
       lit "end", star space, lit "of", star space,
       grp (cat [plus wordc, opt (cat [plus space, rep 4 4 digit])])]

-- by\s*(?:the\s*)?end\s*of\s*(\d{4})
/-- Date pattern 7. -/
def dateP7 : RE :=
  cat [lit "by", star space, opt (cat [lit "the", star space]),
       lit "end", star space, lit "of", star space, grp (rep 4 4 digit)]

-- by\s*(?:the\s*)?(?:next|following)\s*(\w+)
/-- Date pattern 8. -/
def dateP8 : RE :=
  cat [lit "by", star space, opt (cat [lit "the", star space]),
       alt (lit "next") (lit "following"), star space, grp (plus wordc)]

-- by\s*(?:the\s*)?(?:next|following)\s*(\w+\s+\d{4})
/-- Date pattern 9. -/
def dateP9 : RE :=
  cat [lit "by", star space, opt (cat [lit "the", star space]),
       alt (lit "next") (lit "following"), star space,
       grp (cat [plus wordc, plus space, rep 4 4 digit])]

/-- `date_patterns` in source order. -/
def date_patterns : List RE :=
  [dateP1, dateP2, dateP3, dateP4, dateP5, dateP6, dateP7, dateP8, dateP9]

/-- The slash branch of the date parser (`'/' in date_str`).  `int()` on
a malformed part and `strptime` failure both raise, modelled as `none`;
note the short-circuit: `parts[1]` is only converted when the first
range check passed. -/
def parseSlashDate (dateStr : PyStr) : Option Date :=
  match splitOnChar '/' dateStr with
  | [p0, p1, p2] =>
    match pyInt p0 with
    | none => none
    | some a =>
      if 1 ≤ a ∧ a ≤ 31 then
        match pyInt p1 with
        | none => none
        | some b =>
          if 1 ≤ b ∧ b ≤ 12 then
            -- date_str = f"{parts[1]}/{parts[0]}/{parts[2]}" then
            -- strptime(date_str, "%m/%d/%Y")
            strptimeMDY (p1 ++ '/' :: (p0 ++ '/' :: p2))
          else strptimeMDY dateStr
      else strptimeMDY dateStr
  | _ => none   -- date_obj never assigned → UnboundLocalError, caught

-- \w+\s+\d{1,2}(?:st|nd|rd|th)?,?\s*\d{4}   (re.match gate, branch 2)
/-- Month-day-year prefix gate. -/
def mdYGate : RE :=
  cat [plus wordc, plus space, rep 1 2 digit, opt ordSuf, opt (chr ','),
       star space, rep 4 4 digit]

-- \w+\s+\d{4}   (re.match gate, branch 3)
/-- Month-year prefix gate. -/
def mYGate : RE := cat [plus wordc, plus space, rep 4 4 digit]

/-- First `\d{4}` run in a string (`re.search(r'\d{4}', s)`), as a
number. -/
def firstYearIn (s : PyStr) : Option Nat :=
  (reSearchText (rep 4 4 digit) s).map natOfDigits

/-- The `try`-block body of the date loop: parse one captured date
string.  `none` models any raised-and-caught exception
(`ValueError` from `strptime`/`int`/`datetime`, `UnboundLocalError`
when no branch assigned `date_obj`). -/
def parseDateStr (today : Date) (qL dateStr : PyStr) : Option Date :=
  if dateStr.contains '/' then parseSlashDate dateStr
  else if reMatchTest mdYGate dateStr then
    -- strip st/nd/rd/th then strptime "%B %d, %Y"
    strptimeBdY (subOrdinals dateStr)
  else if reMatchTest mYGate dateStr then
    -- strptime(date_str + " 1", "%B %Y %d"), then last day of that month
    (strptimeBYd (dateStr ++ str " 1")).bind fun dObj => monthEnd dObj.year dObj.month
  else if containsSub qL (str "end of") then
    if reMatchTest (rep 4 4 digit) dateStr then
      (pyInt dateStr).bind fun y => mkDatetime y 12 31
    else
      match monthNames.find? fun p => containsSub (lowerS dateStr) p.1 with
      | some mp =>
        let year := match firstYearIn dateStr with
          | some y => y
          | none => today.year
        let year := if containsSub qL (str "next year") then today.year + 1 else year
        monthEnd year mp.2
      | none => none
  else if containsSub qL (str "next") || containsSub qL (str "following") then
    if containsSub (lowerS dateStr) (str "year") then
      mkDatetime (today.year + 1) 12 31
    else
      match monthNames.find? fun p => containsSub (lowerS dateStr) p.1 with
      | some mp =>
        let year := if mp.2 ≤ today.month then today.year + 1 else today.year
        let year := match firstYearIn dateStr with
          | some y => y
          | none => year
        monthEnd year mp.2
      | none => none
  else none

/-- The date-pattern loop: IGNORECASE search on the original query; a
parse failure on one pattern continues with the next pattern. -/
def extractDateLoop (today : Date) (q qL : PyStr) : List RE → Option PyStr
  | [] => none
  | p :: rest =>
    match reSearchGrpIC p q with
    | none => extractDateLoop today q qL rest
    | some dateStr =>
      match parseDateStr today qL dateStr with
      | some dObj => some (strftimeMDY dObj)
      | none => extractDateLoop today q qL rest

/-- Target-date extraction including the trailing
"end of <month> next year" special block. -/
def extractTargetDate (today : Date) (q : PyStr) : Option PyStr :=
  let qL := lowerS q
  match extractDateLoop today q qL date_patterns with
  | some d => some d
  | none =>
    if containsSub qL (str "next year") && containsSub qL (str "end of") then
      match monthNames.find? fun p => containsSub qL p.1 with
      | some mp => (monthEnd (today.year + 1) mp.2).map strftimeMDY
      | none => none
    else none

/-! ### Current savings and priority -/

-- current(?:ly)?\s*sav(?:ed|ings)\s*(?:of|is)?\s*\$?\s*(\d+[,\d]*(?:\.\d+)?)
/-- Savings pattern 1. -/
def savP1 : RE :=
  cat [lit "current", opt (lit "ly"), star space, lit "sav",
       alt (lit "ed") (lit "ings"), star space, opt (alt (lit "of") (lit "is")),
       star space, opt (chr '$'), star space, numGrp]

-- already\s*(?:have|saved)\s*\$?\s*(\d+[,\d]*(?:\.\d+)?)
/-- Savings pattern 2. -/
def savP2 : RE :=
  cat [lit "already", star space, alt (lit "have") (lit "saved"),
       star space, opt (chr '$'), star space, numGrp]

-- saved\s*\$?\s*(\d+[,\d]*(?:\.\d+)?)\s*(?:so far|already|to date)
/-- Savings pattern 3. -/
def savP3 : RE :=
  cat [lit "saved", star space, opt (chr '$'), star space, numGrp,
       star space, alt (lit "so far") (alt (lit "already") (lit "to date"))]

/-- `savings_patterns` loop, first match wins, commas stripped. -/
def extractCurrentSavings (qL : PyStr) : Option PyFloat :=
  [savP1, savP2, savP3].findSome? fun p =>
    (reSearchGrp p qL).map fun g => parseDec (g.filter (· != ','))

/-- The `priority_map` dict in insertion order. -/
def priority_map : List (PyStr × PyStr) :=
  [(str "very high", str "Very High"), (str "high", str "High"),
   (str "medium", str "Medium"), (str "low", str "Low"),
   (str "very low", str "Low")]

-- \b<p>\b\s*priority   (for each key p of priority_map)
/-- Priority extraction loop. -/
def extractPriority (qL : PyStr) : Option PyStr :=
  priority_map.findSome? fun p =>
    if reTest (cat [bnd, litL p.1, bnd, star space, lit "priority"]) qL
    then some p.2 else none

/-- `_extract_goal_parameters(query)` (the regex fallback extractor),
with `datetime.now()` passed in as `today`. -/
def extract_goal_parameters (today : Date) (query : PyStr) : GoalParams :=
  let qL := lowerS query
  let gt := extractGoalType qL
  { goal_type := gt
    goal_name := gt
    target_amount := extractTargetAmount qL
    target_date := extractTargetDate today query
    current_savings := extractCurrentSavings qL
    priority := extractPriority qL }

/-- The goal sub-intent vocabulary (`valid_intents`, fixed order). -/
def valid_intents : List PyStr :=
  [str "create_goal", str "modify_goal", str "delete_goal",
   str "goal_status", str "goal_recommendations", str "general_goal_query"]

/-- `_determine_intent_with_llm`: the completion response (prompt
construction folded into the oracle input) is stripped and lower-cased,
then the first vocabulary intent occurring as a substring is returned;
an exception or an unrecognised response yields `None`. -/
def determine_intent_with_llm (resp : Except PyStr PyStr) : Option PyStr :=
  match resp with
  | .error _ => none
  | .ok r =>
    let ir := lowerS (stripS r)
    valid_intents.find? fun i => containsSub ir i

/-- `_determine_intent` (lines 143-164): the LLM primary pass; when it
retains nothing (`None`), the regex battery
`_determine_intent_with_regex` — a collaborator parameter here — runs on
the query.  Every retained intent is a non-empty vocabulary member, so
Python's truthiness test on the primary result is the `Option` match. -/
def determine_intent (llmResp : Except PyStr PyStr)
    (regexIntent : PyStr → PyStr) (query : PyStr) : PyStr :=
  match determine_intent_with_llm llmResp with
  | some i => i
  | none => regexIntent query

end GoalPlanning

/-! ## `FinancialAdvisorAgent` classification

Transcription of `_classify_with_llm`, `_classify_query` and
`_is_goal_related_request` (`agents/financial_advisor_agent.py`).  The
completion-service call is an oracle value `Except PyStr PyStr`: the raw
response text, or the text of a raised exception. -/

namespace Advisor

open RE

/-- The fixed top-level vocabulary (`valid_categories`). -/
def valid_categories : List PyStr :=
  [str "Transaction Analysis", str "Goal Planning",
   str "Asset Allocation", str "Education", str "General Financial Advice"]

/-- The default category. -/
def generalAdvice : PyStr := str "General Financial Advice"

-- CLASSIFICATION: (.*?)(?:\n|$)
/-- The response-parsing pattern of `_classify_with_llm`. -/
def classificationRE : RE :=
  cat [lit "CLASSIFICATION: ", grp (lazyStar dot), alt (chr '\n') eos]

/-- `re.search(r"CLASSIFICATION: (.*?)(?:\n|$)", response)`, group 1. -/
def classification_line (r : PyStr) : Option PyStr := reSearchGrp classificationRE r

/-- `[cat.strip() for cat in classification_str.split(",")]`. -/
def parse_categories (line : PyStr) : List PyStr :=
  (splitOnChar ',' line).map stripS

/-- `_classify_with_llm`: parse the oracle response and retain the
labels that are members of `valid_categories` (`cat in
valid_categories`: exact, case-sensitive), in response order; any
exception or parse failure yields `[]`. -/
def classify_with_llm (resp : Except PyStr PyStr) : List PyStr :=
  match resp with
  | .error _ => []
  | .ok r =>
    match classification_line r with
    | some line => (parse_categories line).filter fun c => valid_categories.contains c
    | none => []

/-- `transaction_keywords` of the heuristic fallback. -/
def transaction_keywords : List PyStr :=
  [str "spend", str "spending", str "transaction", str "purchase", str "bought",
   str "buy", str "budget", str "expense", str "money", str "cost", str "bill",
   str "subscription", str "paid"]

/-- `goal_keywords` of the heuristic fallback. -/
def goal_keywords : List PyStr :=
  [str "goal", str "save", str "saving", str "target", str "planning",
   str "retire", str "retirement", str "college", str "education", str "house",
   str "home", str "car", str "travel", str "vacation", str "wedding",
   str "emergency fund", str "fund", str "emergency", str "medical",
   str "expense", str "purchase"]

/-- `investment_keywords` of the heuristic fallback. -/
def investment_keywords : List PyStr :=
  [str "invest", str "investing", str "investment", str "portfolio",
   str "stock", str "bond", str "asset", str "allocation", str "fund",
   str "etf", str "mutual fund", str "risk", str "return"]

/-- `education_keywords` of the heuristic fallback. -/
def education_keywords : List PyStr :=
  [str "what is", str "how does", str "explain", str "define", str "mean",
   str "difference between", str "understand", str "works", str "concept"]

/-- The four conditional appends of the heuristic fallback, in source
order (`any(keyword in query_lower for keyword in …)`). -/
def heuristic_categories (qL : PyStr) : List PyStr :=
  (if transaction_keywords.any fun k => containsSub qL k
   then [str "Transaction Analysis"] else []) ++
  (if goal_keywords.any fun k => containsSub qL k
   then [str "Goal Planning"] else []) ++
  (if investment_keywords.any fun k => containsSub qL k
   then [str "Asset Allocation"] else []) ++
  (if education_keywords.any fun k => containsSub qL k
   then [str "Education"] else [])

/-- The heuristic fallback of `_classify_query`: keyword categories,
default if none matched, then the default appended if absent. -/
def classify_fallback (q : PyStr) : List PyStr :=
  let qL := lowerS q
  let categories := heuristic_categories qL
  let categories := if categories.isEmpty then [generalAdvice] else categories
  if categories.contains generalAdvice then categories
  else categories ++ [generalAdvice]

/-- `_classify_query`: LLM primary pass; if it yields a non-empty list,
that list is returned as is; otherwise the heuristic fallback runs. -/
def classify_query (llmResp : Except PyStr PyStr) (q : PyStr) : List PyStr :=
  let llm := classify_with_llm llmResp
  if llm.isEmpty then classify_fallback q else llm

/-- `goal_creation_patterns`: the regex fallback of
`_is_goal_related_request`, in source order. -/
def goal_creation_patterns : List RE :=
  [ cat [lit "create ", alt (lit "a ") (alt (lit "new ") eps), lit "goal"],
    cat [lit "set up ", alt (lit "a ") (alt (lit "new ") eps), lit "goal"],
    cat [lit "start ", alt (lit "a ") (alt (lit "new ") eps), lit "goal"],
    cat [lit "establish ", alt (lit "a ") (alt (lit "new ") eps), lit "goal"],
    lit "save for",
    lit "emergency fund",
    lit "retirement fund",
    lit "education fund",
    lit "home purchase",
    lit "travel fund",
    lit "car fund",
    lit "wedding fund",
    lit "medical expense" ]

/-- `_is_goal_related_request`: the completion response must be exactly
`YES` after strip/upper; on an exception the regex battery runs against
the lower-cased query. -/
def is_goal_related_request (resp : Except PyStr PyStr) (q : PyStr) : Bool :=
  match resp with
  | .ok r => upperS (stripS r) == str "YES"
  | .error _ => goal_creation_patterns.any fun p => reTest p (lowerS q)

/-- The classification selection in `process_query` (lines 127-139): the
goal-focus check short-circuits the general classifier. -/
def chosen_classification (goalFocused : Bool) (llmResp : Except PyStr PyStr)
    (rq : PyStr) : List PyStr :=
  if goalFocused then [str "Goal Planning"] else classify_query llmResp rq

end Advisor

/-! ## `utils/context_management.py` — `ContextManager`

The two completion calls are oracles taking the current query and the
recent history (their prompt construction is pure string glue folded
into the oracle); `Except.error e` models the call raising. -/

namespace ContextMgr

/-- One conversation turn (`{"role": …, "content": …}`). -/
structure Turn where
  role : PyStr
  content : PyStr
deriving DecidableEq

/-- The two completion-service calls of the Context Manager. -/
structure CtxOracles where
  shouldLLM : PyStr → List Turn → Except PyStr PyStr
  rewriteLLM : PyStr → List Turn → Except PyStr PyStr

/-- Python `l[-k:]` for `k ≤ len(l)`. -/
def takeLast (k : Nat) (l : List α) : List α := l.drop (l.length - k)

/-- `chat_history[-min(self.max_history*2, len(chat_history)):]`. -/
def recent_history (maxHistory : Nat) (hist : List Turn) : List Turn :=
  takeLast (min (maxHistory * 2) hist.length) hist

/-- `_llm_should_rewrite`: `"YES" in response.upper()`; on an exception,
the ≤ 3-words structural heuristic. -/
def llm_should_rewrite (o : CtxOracles) (q : PyStr) (recent : List Turn) : Bool :=
  match o.shouldLLM q recent with
  | .ok resp => containsSub (upperS resp) (str "YES")
  | .error _ => decide ((splitWs q).length ≤ 3)

/-- `should_rewrite_query`: `False` immediately when the history has
fewer than 2 turns (`not chat_history or len(chat_history) < 2`). -/
def should_rewrite_query (o : CtxOracles) (maxHistory : Nat) (q : PyStr)
    (hist : List Turn) : Bool :=
  if hist.length < 2 then false
  else llm_should_rewrite o q (recent_history maxHistory hist)

/-- `rewrite_query`: returns `(rewritten_query, was_rewritten)`.  The
rewrite completion runs only when `should_rewrite_query` said yes; an
exception, an empty stripped rewrite, or a case-insensitive no-op all
return `(current_query, False)`. -/
def rewrite_query (o : CtxOracles) (maxHistory : Nat) (q : PyStr)
    (hist : List Turn) : PyStr × Bool :=
  if !should_rewrite_query o maxHistory q hist then (q, false)
  else
    let recent := recent_history maxHistory hist
    match o.rewriteLLM q recent with
    | .error _ => (q, false)
    | .ok raw =>
      let rw := stripS raw
      if rw.isEmpty || lowerS rw == lowerS q then (q, false)
      else (rw, true)

end ContextMgr

/-! ## `GoalPlanningAgent.handle_goal_request`

The dispatcher (lines 58-141).  Intent determination (`_determine_intent`,
which never raises: it catches completion failures and falls back to its
regex battery) and the six `_handle_*` methods, together with the
CSV-backed `goal_manager.get_user_goals`, are collaborator parameters
here; a handler oracle returning `Except.error` models the handler
raising (the dispatcher does not catch — its caller does). -/

namespace GoalPlanning

open RE

/-- One row of the goals table as `to_dict('records')` produces it — the
fields the router's formatting reads. -/
structure GoalRecord where
  goalType : PyStr
  targetAmount : PyFloat
  progressPct : PyFloat
  targetDate : PyStr
deriving DecidableEq

/-- The value `handle_goal_request` returns: a plain string or one of
the three structured dicts it builds (all with `success: True`). -/
inductive GoalResp where
  | text (s : PyStr)
  | created (goalId goalType : PyStr) (targetAmount monthlyContribution : PyFloat)
      (timeline strategy : PyStr)
  | allGoals (goals : List GoalRecord)
  | recommendations (recs : PyStr)
deriving DecidableEq

/-- Collaborators of the dispatcher. -/
structure GoalOracles where
  determineIntent : PyStr → PyStr → PyStr
  getUserGoals : PyStr → List GoalRecord
  handleCreate : PyStr → PyStr → Except PyStr PyStr
  handleModify : PyStr → PyStr → Except PyStr PyStr
  handleDelete : PyStr → PyStr → Except PyStr PyStr
  handleStatus : PyStr → PyStr → Except PyStr PyStr
  handleRecommendations : PyStr → Except PyStr PyStr
  handleGeneral : PyStr → PyStr → Except PyStr PyStr

-- f"{label}: (.*?)(?:\n|$)"
/-- `_extract_value` pattern. -/
def labeledValueRE (label : PyStr) : RE :=
  cat [litL label, lit ": ", grp (lazyStar dot), alt (chr '\n') eos]

/-- `_extract_value(label, text)`. -/
def extract_value (label text : PyStr) : Option PyStr :=
  (reSearchGrp (labeledValueRE label) text).map stripS

-- f"{label}: \$([\d,]+\.\d+)"
/-- `_extract_amount` pattern. -/
def labeledAmountRE (label : PyStr) : RE :=
  cat [litL label, lit ": $",
       grp (cat [plus (cls fun c => c.isDigit || c == ','), chr '.', plus digit])]

/-- `_extract_amount(label, text)`. -/
def extract_amount (label text : PyStr) : Option PyFloat :=
  (reSearchGrp (labeledAmountRE label) text).map fun g => parseDec (g.filter (· != ','))

/-- `_extract_goal_type(query)` (its `goal_types` list is the same
canonical list). -/
def extract_goal_type (query : PyStr) : PyStr :=
  let qL := lowerS query
  match goal_types.find? fun gt => containsSub qL (lowerS gt) with
  | some gt => gt
  | none => str "Custom Goal"

/-- Python `x or y` for an optional string (`None` and `""` are falsy). -/
def pyOrStr (x : Option PyStr) (y : PyStr) : PyStr :=
  match x with
  | some s => if s.isEmpty then y else s
  | none => y

/-- Python `x or 0.0` for an optional float (`None` and `0.0` both give
the default). -/
def pyOrFloat (x : Option PyFloat) (y : PyFloat) : PyFloat :=
  match x with
  | some v => if v.num == 0 then y else v
  | none => y

-- Goal ID: (GOAL\d+)
/-- The goal-id pattern of the wrap-up block. -/
def goalIdRE : RE := cat [lit "Goal ID: ", grp (cat [lit "GOAL", plus digit])]

/-- The `if/elif` dispatch on the determined intent. -/
def dispatch_intent (o : GoalOracles) (request cid : PyStr) : Except PyStr PyStr :=
  let intent := o.determineIntent request cid
  if intent == str "create_goal" then o.handleCreate request cid
  else if intent == str "modify_goal" then o.handleModify request cid
  else if intent == str "delete_goal" then o.handleDelete request cid
  else if intent == str "goal_status" then o.handleStatus request cid
  else if intent == str "goal_recommendations" then o.handleRecommendations cid
  else o.handleGeneral request cid

/-- The wrap-up block (lines 100-141): re-package a string response into
one of the structured response dicts when the request shape asks for
it. -/
def wrap_up (o : GoalOracles) (request cid response : PyStr) : GoalResp :=
  let reqL := lowerS request
  let createdCase : Option GoalResp :=
    if [str "create", str "new", str "add", str "set up"].any (fun t => containsSub reqL t) then
      if containsSub (lowerS response) (str "successfully") &&
         containsSub (lowerS response) (str "goal") then
        let goalId := match reSearchGrp goalIdRE response with
          | some g => g
          | none => str "GOAL_NEW"
        some (.created goalId
          (pyOrStr (extract_value (str "Type") response) (extract_goal_type request))
          (pyOrFloat (extract_amount (str "Target Amount") response) ⟨0, 1⟩)
          (pyOrFloat (extract_amount (str "Monthly Contribution") response) ⟨0, 1⟩)
          (pyOrStr (extract_value (str "Timeline") response) (str "Medium-term"))
          response)
      else none
    else none
  match createdCase with
  | some r => r
  | none =>
    let allGoalsCase : Option GoalResp :=
      if containsSub reqL (str "goals") &&
         [str "what", str "list", str "all", str "my"].any (fun t => containsSub reqL t) then
        let userGoals := o.getUserGoals cid
        if !userGoals.isEmpty then some (.allGoals userGoals) else none
      else none
    match allGoalsCase with
    | some r => r
    | none =>
      if containsSub reqL (str "recommendations") || containsSub reqL (str "recommend") then
        .recommendations response
      else .text response

/-- The dispatcher body once a (lower-cased) customer id is in hand. -/
def handle_goal_with_id (o : GoalOracles) (request cid : PyStr) : Except PyStr GoalResp :=
  (dispatch_intent o request cid).map fun response => wrap_up o request cid response

/-- The guard message. -/
def needCustomerMsg : PyStr :=
  str "I need customer information to process goal-related requests."

/-- The `user_context` dict as the dispatcher reads it: only its
`customer_id` entry is consulted (`none` models a missing key; the other
entries only feed prompt text, which is folded into the oracles). -/
structure UserCtx where
  customer_id : Option PyStr
deriving DecidableEq

/-- `handle_goal_request(request, user_context)`.  Customer ids are
strings here, so the `isinstance(customer_id, str)` lowercasing branch
is always the one taken. -/
def handle_goal_request (o : GoalOracles) (request : PyStr)
    (user_context : Option UserCtx) : Except PyStr GoalResp :=
  let customerId := match user_context with
    | some c => c.customer_id
    | none => none
  match customerId with
  | none => .ok (.text needCustomerMsg)
  | some cid =>
    if cid.isEmpty then .ok (.text needCustomerMsg)
    else handle_goal_with_id o request (lowerS cid)

end GoalPlanning

/-! ## `FinancialAdvisorAgent` — dispatch and aggregation

`_get_agent_responses`, `_generate_final_response`,
`_extract_education_topic` and the `process_query` pipeline.  Specialist
agents and completion calls are oracles; `Except.error` models the call
raising, which the dispatch loop catches per category. -/

namespace Advisor

open RE

/-- `agent_responses` is a Python dict: insertion-ordered association
list whose assignment updates an existing key in place. -/
abbrev PyDict := List (PyStr × PyStr)

/-- `d[k] = v`. -/
def dictSet (d : PyDict) (k v : PyStr) : PyDict :=
  match d with
  | [] => [(k, v)]
  | (k', v') :: rest => if k' == k then (k, v) :: rest else (k', v') :: dictSet rest k v

/-- Insert `','` every three digits from the right (`{:,}` grouping). -/
def chunk3 : Nat → PyStr → List PyStr
  | 0, _ => []
  | _, [] => []
  | f + 1, l => l.take 3 :: chunk3 f (l.drop 3)

/-- Group a digit string with commas. -/
def groupDigits (s : PyStr) : PyStr :=
  (List.intercalate [','] (chunk3 (s.length + 1) s.reverse)).reverse

/-- `"{:.Nf}"`-style fixed-point formatting of an exact decimal
(round-half-even, matching CPython for the exactly representable values
this pipeline formats), with optional thousands grouping. -/
def fmtFixed (group : Bool) (decimals : Nat) (x : PyFloat) : PyStr :=
  let scale : Nat := 10 ^ decimals
  let scaledNum := x.num * scale
  let den : Int := x.den
  let q := scaledNum.ediv den
  let r := scaledNum - q * den
  let rounded : Int :=
    if 2 * r < den then q
    else if den < 2 * r then q + 1
    else if q % 2 == 0 then q else q + 1
  let a := rounded.natAbs
  let whole := a / scale
  let frac := a % scale
  let wholeS := if group then groupDigits (natDigits whole) else natDigits whole
  (if rounded < 0 then ['-'] else []) ++ wholeS ++
    (if decimals == 0 then [] else '.' :: padNum decimals frac)

/-- `f"${x:,.2f}"`'s numeric part. -/
def fmtMoney (x : PyFloat) : PyStr := fmtFixed true 2 x

/-- `f"{x:.1f}"`. -/
def fmtPct1 (x : PyFloat) : PyStr := fmtFixed false 1 x

/-- How `_get_agent_responses` renders a goal response (lines 950-981):
the three structured dicts get their dedicated formats, and a plain
string response is `str(goal_response)`, itself. -/
def format_goal_response (gr : GoalPlanning.GoalResp) : PyStr :=
  match gr with
  | .created goalId goalType ta mc timeline strategy =>
    str "Goal created successfully!\n\nGoal ID: " ++ goalId ++
    str "\nType: " ++ goalType ++
    str "\nTarget Amount: $" ++ fmtMoney ta ++
    str "\nMonthly Contribution: $" ++ fmtMoney mc ++
    str "\nTimeline: " ++ timeline ++ str "\n\n" ++ strategy
  | .allGoals goals =>
    if goals.isEmpty then str "No financial goals found."
    else
      str "Current financial goals:\n" ++
        List.intercalate (str "\n") (goals.map fun g =>
          str "- " ++ g.goalType ++ str ": $" ++ fmtMoney g.targetAmount ++
          str " (" ++ fmtPct1 g.progressPct ++ str "% complete, target: " ++
          g.targetDate ++ str ")")
  | .recommendations recs => recs
  | .text s => s

-- explain (?:to me )?(?:what|how) (.*?)(?:is|works|means)(?:\?|$|\.)
/-- Education-topic pattern 1. -/
def eduP1 : RE :=
  cat [lit "explain ", opt (lit "to me "), alt (lit "what") (lit "how"), chr ' ',
       grp (lazyStar dot), alt (lit "is") (alt (lit "works") (lit "means")),
       alt (chr '?') (alt eos (chr '.'))]

-- explain (?:to me )?(?:about )?(.*?)(?:\?|$|\.)
/-- Education-topic pattern 2. -/
def eduP2 : RE :=
  cat [lit "explain ", opt (lit "to me "), opt (lit "about "),
       grp (lazyStar dot), alt (chr '?') (alt eos (chr '.'))]

-- what (?:is|are) (.*?)(?:\?|$|\.)
/-- Education-topic pattern 3. -/
def eduP3 : RE :=
  cat [lit "what ", alt (lit "is") (lit "are"), chr ' ',
       grp (lazyStar dot), alt (chr '?') (alt eos (chr '.'))]

-- tell me about (.*?)(?:\?|$|\.)
/-- Education-topic pattern 4. -/
def eduP4 : RE :=
  cat [lit "tell me about ", grp (lazyStar dot), alt (chr '?') (alt eos (chr '.'))]

-- how (?:does|do) (.*?) work(?:\?|$|\.)
/-- Education-topic pattern 5. -/
def eduP5 : RE :=
  cat [lit "how ", alt (lit "does") (lit "do"), chr ' ',
       grp (lazyStar dot), lit " work", alt (chr '?') (alt eos (chr '.'))]

/-- `_extract_education_topic(query)`. -/
def extract_education_topic (query : PyStr) : PyStr :=
  let qL := lowerS query
  match [eduP1, eduP2, eduP3, eduP4, eduP5].findSome? fun p => reSearchGrp p qL with
  | some t =>
    let topic := stripS t
    -- each filler prefix is tested (and stripped) in turn
    [str "the ", str "a ", str "an "].foldl
      (fun tp w => if w.isPrefixOf tp then tp.drop w.length else tp) topic
  | none =>
    let qws := splitWs qL
    if qws.contains (str "what") && qws.contains (str "is") then
      let wi := qws.indexOf (str "what")
      if wi + 1 < qws.length && qws.get? (wi + 1) == some (str "is") then
        let topicWords := qws.drop (wi + 2)
        let topicWords :=
          match topicWords.reverse with
          | last :: restRev =>
            if last.reverse.head? == some '?'
            then (last.dropLast :: restRev).reverse else topicWords
          | [] => topicWords
        List.intercalate (str " ") topicWords
      else str "personal finance"
    else str "personal finance"

/-- Every collaborator `process_query` reaches, as oracles.  Prompt
construction (pure string templating) is folded into each oracle's
inputs; `user_context` fields beyond `customer_id` feed only prompt
text, so the context oracle exposes just that entry. -/
structure AdvisorOracles where
  ctx : ContextMgr.CtxOracles
  maxHistory : Nat
  getUserContext : PyStr → GoalPlanning.UserCtx
  goalCheckLLM : PyStr → Except PyStr PyStr
  classifyLLM : PyStr → Except PyStr PyStr
  goal : GoalPlanning.GoalOracles
  transactionNudges : PyStr → Except PyStr PyStr
  allocationHandle : PyStr → PyStr → Except PyStr PyStr
  educationContent : PyStr → Except PyStr PyStr
  generalAdviceLLM : PyStr → Except PyStr PyStr
  integrateLLM : PyStr → PyDict → Except PyStr PyStr
  followUpLLM : PyStr → PyStr → PyStr → Except PyStr PyStr

/-- The category-scoped error strings of the dispatch loop. -/
def goalErrMsg : PyStr := str "I encountered an issue processing your goal-related request."

/-- Transaction-branch error string. -/
def transactionErrMsg : PyStr := str "Unable to generate transaction insights at this time."

/-- Allocation-branch error string. -/
def allocationErrMsg : PyStr :=
  str "I'm unable to provide allocation advice at this time due to a technical issue."

/-- Education-branch error string (the extracted topic is interpolated). -/
def educationErrMsg (topic : PyStr) : PyStr :=
  str "I'd be happy to explain about " ++ topic ++
  str ", but I'm having trouble accessing that information right now."

/-- `_generate_general_advice` catches its own completion failure and
returns this apology. -/
def generalAdviceErrMsg : PyStr :=
  str "I apologize, but I'm having trouble generating specific advice at the moment. Please try asking a more specific question about your finances."

/-- The Goal-Planning arm of the dispatch loop: handler call plus
formatting inside one `try`; the early return fires when the query is
goal-focused and the stored response is truthy (non-empty). -/
def goalCategoryStep (o : AdvisorOracles) (q : PyStr)
    (uctx : GoalPlanning.UserCtx) (gf : Bool) (rs : PyDict) : PyDict × Bool :=
  match GoalPlanning.handle_goal_request o.goal q (some uctx) with
  | .ok gr =>
    let v := format_goal_response gr
    (dictSet rs (str "Goal Planning") v, gf && !v.isEmpty)
  | .error _ => (dictSet rs (str "Goal Planning") goalErrMsg, false)

/-- The `for category in classification` loop of `_get_agent_responses`;
the boolean from `goalCategoryStep` encodes its early `return`. -/
def agent_responses_loop (o : AdvisorOracles) (q cid : PyStr)
    (uctx : GoalPlanning.UserCtx) (gf : Bool) : List PyStr → PyDict → PyDict
  | [], rs => rs
  | c :: rest, rs =>
    if c == str "Goal Planning" then
      match goalCategoryStep o q uctx gf rs with
      | (rs', true) => rs'
      | (rs', false) => agent_responses_loop o q cid uctx gf rest rs'
    else if c == str "Transaction Analysis" then
      if !gf then
        let v := match o.transactionNudges cid with
          | .ok n => n
          | .error _ => transactionErrMsg
        agent_responses_loop o q cid uctx gf rest (dictSet rs (str "Transaction Analysis") v)
      else agent_responses_loop o q cid uctx gf rest rs
    else if c == str "Asset Allocation" then
      let v := match o.allocationHandle q cid with
        | .ok a => a
        | .error _ => allocationErrMsg
      agent_responses_loop o q cid uctx gf rest (dictSet rs (str "Asset Allocation") v)
    else if c == str "Education" then
      let topic := extract_education_topic q
      let v := match o.educationContent topic with
        | .ok ec => ec
        | .error _ => educationErrMsg topic
      agent_responses_loop o q cid uctx gf rest (dictSet rs (str "Education") v)
    else if c == str "General Financial Advice" then
      let v := match o.generalAdviceLLM q with
        | .ok a => a
        | .error _ => generalAdviceErrMsg
      agent_responses_loop o q cid uctx gf rest (dictSet rs (str "General Financial Advice") v)
    else agent_responses_loop o q cid uctx gf rest rs

/-- `_get_agent_responses`: goal focus prepends `"Goal Planning"` when
absent, then the per-category loop runs. -/
def get_agent_responses (o : AdvisorOracles) (classification : List PyStr)
    (q cid : PyStr) (uctx : GoalPlanning.UserCtx) (gf : Bool) : PyDict :=
  let classification :=
    if gf && !classification.contains (str "Goal Planning")
    then str "Goal Planning" :: classification else classification
  agent_responses_loop o q cid uctx gf classification []

/-- `_generate_follow_up_suggestions`: completion failure degrades to
the empty string. -/
def follow_up_suggestions (o : AdvisorOracles) (q topic focus : PyStr) : PyStr :=
  match o.followUpLLM q topic focus with
  | .ok s => s
  | .error _ => str ""

/-- The concatenation fallback of `_generate_final_response`. -/
def concat_fallback (responses : PyDict) : PyStr :=
  stripS (responses.foldl (fun acc p => acc ++ str "\n\n" ++ p.1 ++ str ":\n" ++ p.2) [])

/-- `_generate_final_response`: a single response is returned directly
with follow-ups; multiple responses are synthesised via the completion
service inside a `try` whose failure (including the `classification[0]`
IndexError on an empty classification) falls back to plain
concatenation. -/
def generate_final_response (o : AdvisorOracles) (classification : List PyStr)
    (q : PyStr) (responses : PyDict) : PyStr :=
  if responses.length == 1 then
    match responses.head? with
    | some p => p.2 ++ str "\n\n" ++ follow_up_suggestions o q p.1 p.1
    | none => str ""
  else
    let integrated : Except PyStr PyStr := do
      let text ← o.integrateLLM q responses
      let focus := List.intercalate (str ", ") (classification.take 2)
      let first ← match classification.head? with
        | some c => Except.ok c
        | none => Except.error (str "IndexError: list index out of range")
      Except.ok (text ++ str "\n\n" ++ follow_up_suggestions o q first focus)
    match integrated with
    | .ok s => s
    | .error _ => concat_fallback responses

/-- The context-rewrite step of `process_query` (lines 113-122):
applied only when a non-empty chat history is supplied; the rewritten
text is what the rest of the pipeline consumes. -/
def rewritten_query (o : AdvisorOracles) (q : PyStr)
    (hist : List ContextMgr.Turn) : PyStr :=
  (if !hist.isEmpty
   then ContextMgr.rewrite_query o.ctx o.maxHistory q hist else (q, false)).1

/-- The `try`-block body of `process_query` (lines 112-161). -/
def process_query_body (o : AdvisorOracles) (q cid : PyStr)
    (hist : List ContextMgr.Turn) : Except PyStr PyStr :=
  let rq := rewritten_query o q hist
  let uctx := o.getUserContext cid
  let gf := is_goal_related_request (o.goalCheckLLM rq) rq
  let classification := chosen_classification gf (o.classifyLLM rq) rq
  let responses := get_agent_responses o classification rq cid uctx gf
  Except.ok (generate_final_response o classification rq responses)

/-- The outer catch-all apology (line 166). -/
def apology (e : PyStr) : PyStr :=
  str "I apologize, but I'm having trouble processing your request at the moment. Please try again or ask a different question. Error details: " ++ e

/-- `process_query(user_query, customer_id, chat_history)`. -/
def process_query (o : AdvisorOracles) (q cid : PyStr)
    (hist : List ContextMgr.Turn) : PyStr :=
  match process_query_body o q cid hist with
  | .ok s => s
  | .error e => apology e

/-- Modelled from the spec (§4.2 step 2, "only labels that are exact
(case-insensitive) matches to the fixed vocabulary are retained, in the
order they appear"): the retention the spec describes, to be compared
with `classify_with_llm`'s actual (case-sensitive) retention. -/
def spec_retained_labels (r : PyStr) : List PyStr :=
  match classification_line r with
  | some line => (parse_categories line).filter fun c =>
      valid_categories.any fun v => lowerS v == lowerS c
  | none => []

end Advisor

namespace GoalPlanning

/-- Modelled from the spec (§4.3, "if the first field is 1-31 and the
second is 1-12, and the first exceeds 12, interpret as DD/MM and swap;
otherwise assume MM/DD"): the slash-date rule the spec describes, to be
compared with `parseSlashDate`'s actual behaviour. -/
def spec_slash_date (dateStr : PyStr) : Option Date :=
  match splitOnChar '/' dateStr with
  | [p0, p1, p2] =>
    match pyInt p0, pyInt p1 with
    | some a, some b =>
      if 1 ≤ a ∧ a ≤ 31 ∧ 1 ≤ b ∧ b ≤ 12 ∧ 12 < a
      then strptimeMDY (p1 ++ '/' :: (p0 ++ '/' :: p2))
      else strptimeMDY (p0 ++ '/' :: (p1 ++ '/' :: p2))
    | _, _ => none
  | _ => none

end GoalPlanning

/-- The scenario query of the spec's §8 walk-through. -/
def scenarioQuery : PyStr :=
  str "I want to create an emergency fund of $5000 till 03/31/2026"

/-! ## Concrete collaborator instantiations (used by witnesses) -/

/-- A concrete Context-Manager oracle pair. -/
def demoCtxOracles : ContextMgr.CtxOracles :=
  ⟨fun _ _ => .ok (str "NO"), fun _ _ => .ok (str "rewritten")⟩

/-- A concrete Context-Manager oracle pair whose completion calls fail. -/
def failingCtxOracles : ContextMgr.CtxOracles :=
  ⟨fun _ _ => .error (str "timeout"), fun _ _ => .error (str "timeout")⟩

/-- A concrete goal-agent collaborator set. -/
def demoGoalOracles : GoalPlanning.GoalOracles :=
  ⟨fun _ _ => str "general_goal_query", fun _ => [],
   fun _ _ => .ok (str "created"), fun _ _ => .ok (str "modified"),
   fun _ _ => .ok (str "deleted"), fun _ _ => .ok (str "status"),
   fun _ => .ok (str "recs"), fun _ _ => .ok (str "general")⟩

/-- A concrete advisor collaborator set: goal check answers `YES`, the
allocation agent raises, the education agent succeeds. -/
def demoAdvisorOracles : Advisor.AdvisorOracles :=
  ⟨demoCtxOracles, 5, fun cid => ⟨some cid⟩,
   fun _ => .ok (str "YES"), fun _ => .ok (str "CLASSIFICATION: Education"),
   demoGoalOracles,
   fun _ => .ok (str "nudges"), fun _ _ => .error (str "alloc down"),
   fun _ => .ok (str "edu content"), fun _ => .ok (str "advice"),
   fun _ _ => .ok (str "combined"), fun _ _ _ => .ok (str "follow-ups")⟩

/-! # Theorems

Helper lemmas first, then one theorem per claim (with its counterexample
and witness where applicable). -/

/-- Membership in a conditional singleton forces the element. -/
theorem mem_if_singleton {b : Bool} {x y : PyStr}
    (h : y ∈ if b = true then [x] else []) : y = x := by
  split at h
  · simpa using h
  · simp at h

/-- The default category label is never produced by the keyword
heuristics themselves. -/
theorem gfa_not_mem_heuristic (qL : PyStr) :
    Advisor.generalAdvice ∉ Advisor.heuristic_categories qL := by
  intro h
  unfold Advisor.heuristic_categories at h
  simp only [List.mem_append] at h
  rcases h with ((h | h) | h) | h <;>
    exact absurd (mem_if_singleton h) (by decide)

/-- The heuristic fallback always returns a non-empty list. -/
theorem fallback_ne_nil (q : PyStr) : Advisor.classify_fallback q ≠ [] := by
  unfold Advisor.classify_fallback
  rcases hb : (Advisor.heuristic_categories (lowerS q)).isEmpty with _ | _
  · have hne : Advisor.heuristic_categories (lowerS q) ≠ [] := fun hnil => by
      simp [hnil] at hb
    simp only [hb, Bool.false_eq_true, if_false]
    split
    · exact hne
    · simp
  · simp [hb]

/-- The heuristic fallback contains the default category exactly once. -/
theorem gfa_count_fallback (q : PyStr) :
    List.count Advisor.generalAdvice (Advisor.classify_fallback q) = 1 := by
  unfold Advisor.classify_fallback
  have hnm := gfa_not_mem_heuristic (lowerS q)
  rcases hb : (Advisor.heuristic_categories (lowerS q)).isEmpty with _ | _
  · have hcont : (Advisor.heuristic_categories (lowerS q)).contains
        Advisor.generalAdvice = false := by
      simpa using hnm
    simp only [hb, Bool.false_eq_true, if_false, hcont]
    rw [List.count_append, List.count_eq_zero.mpr hnm]
    simp
  · simp [hb]

/-- Splitting at a separator that does not occur in the first chunk. -/
theorem splitOnChar_sep (c : Char) (p rest : PyStr) (hp : c ∉ p) :
    splitOnChar c (p ++ c :: rest) = p :: splitOnChar c rest := by
  induction p with
  | nil => simp [splitOnChar]
  | cons x xs ih =>
    have hx : (x == c) = false := by
      simp only [List.mem_cons, not_or] at hp
      exact beq_eq_false_iff_ne.mpr fun hxc => hp.1 hxc.symm
    have htail : c ∉ xs := by
      simp only [List.mem_cons, not_or] at hp
      exact hp.2
    simp only [List.cons_append, splitOnChar, hx, Bool.false_eq_true, if_false,
      List.append_eq]
    rw [ih htail]

/-- Splitting a chunk free of the separator. -/
theorem splitOnChar_nosep (c : Char) (p : PyStr) (hp : c ∉ p) :
    splitOnChar c p = [p] := by
  induction p with
  | nil => rfl
  | cons x xs ih =>
    have hx : (x == c) = false := by
      simp only [List.mem_cons, not_or] at hp
      exact beq_eq_false_iff_ne.mpr fun hxc => hp.1 hxc.symm
    have htail : c ∉ xs := by
      simp only [List.mem_cons, not_or] at hp
      exact hp.2
    simp only [splitOnChar, hx, Bool.false_eq_true, if_false]
    rw [ih htail]

/-- `int()` succeeds on a non-empty digit string. -/
theorem pyInt_digits (p : PyStr) (hne : p ≠ []) (hd : p.all Char.isDigit = true) :
    pyInt p = some (natOfDigits p) := by
  unfold pyInt
  rw [if_pos ⟨hne, hd⟩]

/-- A digit string contains no slash. -/
theorem slash_not_mem_of_digits (p : PyStr) (hd : p.all Char.isDigit = true) :
    '/' ∉ p := by
  intro h
  exact absurd (List.all_eq_true.mp hd _ h) (by decide)

/-- C1 counterexample: the completion response `CLASSIFICATION: Goal
Planning` is parsed and returned by `_classify_query` as
`["Goal Planning"]`, which contains zero occurrences of the default
category "General Financial Advice" — so the output does not always
contain exactly one occurrence of the default. -/
theorem C1_counterexample :
    Advisor.classify_query (.ok (str "CLASSIFICATION: Goal Planning")) (str "hello")
      = [str "Goal Planning"] ∧
    List.count Advisor.generalAdvice
      (Advisor.classify_query (.ok (str "CLASSIFICATION: Goal Planning")) (str "hello"))
      = 0 := by
  decide

/-- C1 (amended): `_classify_query` always returns a non-empty list, and
whenever the LLM primary pass retains no valid category (parse failure
or exception), the heuristic fallback's result contains exactly one
occurrence of the default category "General Financial Advice"; when the
primary pass retains a non-empty list, that list is returned as is and
the default is not appended. -/
theorem C1_default_category (resp : Except PyStr PyStr) (q : PyStr) :
    Advisor.classify_query resp q ≠ [] ∧
    (Advisor.classify_with_llm resp = [] →
      List.count Advisor.generalAdvice (Advisor.classify_query resp q) = 1) := by
  unfold Advisor.classify_query
  rcases hllm : Advisor.classify_with_llm resp with _ | ⟨c, cs⟩
  · simp only [List.isEmpty_nil, if_true]
    exact ⟨fallback_ne_nil q, fun _ => gfa_count_fallback q⟩
  · simp only [List.isEmpty_cons, Bool.false_eq_true, if_false]
    exact ⟨by simp, fun habs => absurd habs (by simp)⟩

/-- C1 witness: a failed completion call at a query with no keyword hits
gives a classification holding the default exactly once. -/
theorem C1_default_category_witness :
    Advisor.classify_query (.error (str "boom")) (str "hello") ≠ [] ∧
    List.count Advisor.generalAdvice
      (Advisor.classify_query (.error (str "boom")) (str "hello")) = 1 :=
  ⟨(C1_default_category (.error (str "boom")) (str "hello")).1,
   (C1_default_category (.error (str "boom")) (str "hello")).2 (by decide)⟩

/-- C2: when the dedicated goal-intent check answers true, the
classification used by `process_query` is exactly `["Goal Planning"]`,
and the whole result of `process_query` is unchanged under any
replacement of the general classifier's completion oracle — the general
classifier is never consulted. -/
theorem C2_goal_short_circuit (o : Advisor.AdvisorOracles)
    (c₁ c₂ : PyStr → Except PyStr PyStr) (q cid : PyStr)
    (hist : List ContextMgr.Turn) (resp : Except PyStr PyStr) (rq : PyStr)
    (h : Advisor.is_goal_related_request
          (o.goalCheckLLM (Advisor.rewritten_query o q hist))
          (Advisor.rewritten_query o q hist) = true) :
    Advisor.chosen_classification true resp rq = [str "Goal Planning"] ∧
    Advisor.process_query { o with classifyLLM := c₁ } q cid hist
      = Advisor.process_query { o with classifyLLM := c₂ } q cid hist := by
  refine ⟨rfl, ?_⟩
  obtain ⟨ctxo, mh, guc, gchk, _cl, goalo, tn, ah, ec, ga, il, fu⟩ := o
  dsimp only at h
  unfold Advisor.process_query Advisor.process_query_body
  dsimp only [Advisor.rewritten_query, Advisor.chosen_classification] at h ⊢
  rw [h]
  rfl

/-- C2 witness: with a collaborator set whose goal check answers `YES`,
two different classifier oracles give the same `process_query` result. -/
theorem C2_goal_short_circuit_witness :
    Advisor.chosen_classification true (.ok (str "CLASSIFICATION: Education"))
      (str "create a goal") = [str "Goal Planning"] ∧
    Advisor.process_query
        { demoAdvisorOracles with classifyLLM := fun _ => .ok (str "CLASSIFICATION: Education") }
        (str "create a goal") (str "CUSTOMER1") []
      = Advisor.process_query
        { demoAdvisorOracles with classifyLLM := fun _ => .error (str "down") }
        (str "create a goal") (str "CUSTOMER1") [] :=
  C2_goal_short_circuit demoAdvisorOracles
    (fun _ => .ok (str "CLASSIFICATION: Education")) (fun _ => .error (str "down"))
    (str "create a goal") (str "CUSTOMER1") []
    (.ok (str "CLASSIFICATION: Education")) (str "create a goal") (by decide)

/-- C3: on the scenario query the goal-focus check is true on its regex
fallback (and forces classification `["Goal Planning"]`), and the regex
extractor yields goal type "Emergency Fund" and target date
"03/31/2026" — but target amount 500.0, not the 5000.0 the claim
states: the currency pattern `\$\s*(\d{1,3}(?:,\d{3})*(?:\.\d{1,2})?)`
captures only the first three digits of the comma-less "$5000". -/
theorem C3_scenario_evaluation :
    (∀ e : PyStr, Advisor.is_goal_related_request (.error e) scenarioQuery = true) ∧
    (∀ (resp : Except PyStr PyStr) (rq : PyStr),
      Advisor.chosen_classification true resp rq = [str "Goal Planning"]) ∧
    (∀ t : Date,
      (GoalPlanning.extract_goal_parameters t scenarioQuery).goal_type
        = some (str "Emergency Fund") ∧
      (GoalPlanning.extract_goal_parameters t scenarioQuery).target_date
        = some (str "03/31/2026") ∧
      (GoalPlanning.extract_goal_parameters t scenarioQuery).target_amount
        = some ⟨500, 1⟩) :=
  ⟨fun _ => rfl, fun _ _ => rfl, fun _ => ⟨rfl, rfl, rfl⟩⟩

/-- C4 counterexample: on "by 01/02/2026" both fields are in range and
the first does not exceed 12, so the claim's rule keeps MM/DD and yields
"01/02/2026" — but the code swaps unconditionally whenever the first
field is 1-31 and the second 1-12, yielding "02/01/2026". -/
theorem C4_counterexample :
    (GoalPlanning.extract_goal_parameters ⟨2025, 6, 15⟩ (str "by 01/02/2026")).target_date
      = some (str "02/01/2026") ∧
    (GoalPlanning.spec_slash_date (str "01/02/2026")).map strftimeMDY
      = some (str "01/02/2026") ∧
    some (str "02/01/2026") ≠ some (str "01/02/2026") := by
  decide

/-- C4 (amended): for a slash date `D1/D2/YYYY`, the code interprets it
as DD/MM and swaps the fields whenever the first field is between 1 and
31 AND the second between 1 and 12 — regardless of whether the first
exceeds 12; otherwise it parses as MM/DD.  Both round-trip examples
hold: "by 03/31/2026" and "by 31/03/2026" normalise to "03/31/2026". -/
theorem C4_slash_date_rule :
    (∀ p0 p1 p2 : PyStr, p0 ≠ [] → p0.all Char.isDigit = true →
      p1 ≠ [] → p1.all Char.isDigit = true → p2.all Char.isDigit = true →
      GoalPlanning.parseSlashDate (p0 ++ '/' :: (p1 ++ '/' :: p2)) =
        if (1 ≤ natOfDigits p0 ∧ natOfDigits p0 ≤ 31) ∧
           (1 ≤ natOfDigits p1 ∧ natOfDigits p1 ≤ 12)
        then strptimeMDYparts p1 p0 p2
        else strptimeMDYparts p0 p1 p2) ∧
    (GoalPlanning.extract_goal_parameters ⟨2025, 6, 15⟩ (str "by 03/31/2026")).target_date
      = some (str "03/31/2026") ∧
    (GoalPlanning.extract_goal_parameters ⟨2025, 6, 15⟩ (str "by 31/03/2026")).target_date
      = some (str "03/31/2026") := by
  refine ⟨?_, by decide, by decide⟩
  intro p0 p1 p2 h0ne h0d h1ne h1d h2d
  have hs0 : '/' ∉ p0 := slash_not_mem_of_digits p0 h0d
  have hs1 : '/' ∉ p1 := slash_not_mem_of_digits p1 h1d
  have hs2 : '/' ∉ p2 := slash_not_mem_of_digits p2 h2d
  have hsplit : splitOnChar '/' (p0 ++ '/' :: (p1 ++ '/' :: p2)) = [p0, p1, p2] := by
    rw [splitOnChar_sep _ _ _ hs0, splitOnChar_sep _ _ _ hs1, splitOnChar_nosep _ _ hs2]
  have hsplit' : splitOnChar '/' (p1 ++ '/' :: (p0 ++ '/' :: p2)) = [p1, p0, p2] := by
    rw [splitOnChar_sep _ _ _ hs1, splitOnChar_sep _ _ _ hs0, splitOnChar_nosep _ _ hs2]
  have e1 : strptimeMDY (p1 ++ '/' :: (p0 ++ '/' :: p2)) = strptimeMDYparts p1 p0 p2 := by
    unfold strptimeMDY
    rw [hsplit']
  have e2 : strptimeMDY (p0 ++ '/' :: (p1 ++ '/' :: p2)) = strptimeMDYparts p0 p1 p2 := by
    unfold strptimeMDY
    rw [hsplit]
  simp only [GoalPlanning.parseSlashDate, hsplit, pyInt_digits p0 h0ne h0d,
    pyInt_digits p1 h1ne h1d, e1, e2]
  split_ifs <;> first | rfl | tauto

/-- C4 witness: the rule applied to the parts of "31/03/2026". -/
theorem C4_slash_date_rule_witness :
    GoalPlanning.parseSlashDate (str "31" ++ '/' :: (str "03" ++ '/' :: str "2026")) =
      if (1 ≤ natOfDigits (str "31") ∧ natOfDigits (str "31") ≤ 31) ∧
         (1 ≤ natOfDigits (str "03") ∧ natOfDigits (str "03") ≤ 12)
      then strptimeMDYparts (str "03") (str "31") (str "2026")
      else strptimeMDYparts (str "31") (str "03") (str "2026") :=
  C4_slash_date_rule.1 (str "31") (str "03") (str "2026")
    (by decide) (by decide) (by decide) (by decide) (by decide)

/-- C5: the amount-extraction fallback maps "$10,000.00" to 10000.0,
"10k" to 10000.0 and "1.5 million" to 1500000.0 (ordered patterns,
first match wins, thousands separators stripped before conversion). -/
theorem C5_amount_parsing :
    ∀ t : Date,
    (GoalPlanning.extract_goal_parameters t (str "$10,000.00")).target_amount
      = some ⟨10000, 1⟩ ∧
    (GoalPlanning.extract_goal_parameters t (str "10k")).target_amount
      = some ⟨10000, 1⟩ ∧
    (GoalPlanning.extract_goal_parameters t (str "1.5 million")).target_amount
      = some ⟨1500000, 1⟩ :=
  fun _ => ⟨rfl, rfl, rfl⟩

/-- C6 counterexample: the top-level validation is case-sensitive — the
response `CLASSIFICATION: goal planning` retains nothing (triggering the
fallback), while the case-insensitive retention the claim describes
would retain the label. -/
theorem C6_counterexample :
    Advisor.classify_with_llm (.ok (str "CLASSIFICATION: goal planning")) = [] ∧
    Advisor.spec_retained_labels (str "CLASSIFICATION: goal planning")
      = [str "goal planning"] ∧
    Advisor.classify_with_llm (.ok (str "CLASSIFICATION: goal planning")) ≠
      Advisor.spec_retained_labels (str "CLASSIFICATION: goal planning") := by
  decide

/-- C6 (amended): the top-level classifier retains only labels that are
exact case-sensitive members of the fixed vocabulary, in response order
(a sublist of the parsed labels).  The goal sub-intent classifier
instead retains by substring, not exact match: it returns `some i`
exactly when `i` occurs as a substring of the lower-cased stripped
response and no intent standing before `i` in the fixed declaration
order does (first match in declaration order, not response order); it
returns `None` exactly when no vocabulary intent occurs, and `None`
makes `_determine_intent` run the regex fallback.  An empty retention is
primary-pass failure in both. -/
theorem C6_label_validation :
    (∀ (r line : PyStr), Advisor.classification_line r = some line →
      (∀ c ∈ Advisor.classify_with_llm (.ok r), c ∈ Advisor.valid_categories) ∧
      (Advisor.classify_with_llm (.ok r)).Sublist (Advisor.parse_categories line)) ∧
    (∀ (s i : PyStr),
      GoalPlanning.determine_intent_with_llm (.ok s) = some i ↔
        containsSub (lowerS (stripS s)) i = true ∧
        ∃ pre post, GoalPlanning.valid_intents = pre ++ i :: post ∧
          ∀ j ∈ pre, containsSub (lowerS (stripS s)) j = false) ∧
    (∀ s : PyStr,
      GoalPlanning.determine_intent_with_llm (.ok s) = none ↔
        ∀ j ∈ GoalPlanning.valid_intents, containsSub (lowerS (stripS s)) j = false) ∧
    (∀ (s q : PyStr) (regexIntent : PyStr → PyStr),
      GoalPlanning.determine_intent_with_llm (.ok s) = none →
        GoalPlanning.determine_intent (.ok s) regexIntent q = regexIntent q) := by
  refine ⟨?_, ?_, ?_, ?_⟩
  · intro r line hline
    simp only [Advisor.classify_with_llm, hline]
    constructor
    · intro c hc
      have h2 := List.of_mem_filter hc
      simpa using h2
    · exact List.filter_sublist _
  · intro s i
    unfold GoalPlanning.determine_intent_with_llm
    rw [List.find?_eq_some]
    simp only [Bool.not_eq_true']
  · intro s
    unfold GoalPlanning.determine_intent_with_llm
    rw [List.find?_eq_none]
    simp only [Bool.not_eq_true]
  · intro s q regexIntent h
    unfold GoalPlanning.determine_intent
    rw [h]

/-- C6 witness: the response "It is goal_status or create_goal." retains
`create_goal` — by substring, not exact match, and although
`goal_status` appears first in the response, the first intent in
declaration order wins — while a response containing no vocabulary
intent yields `None` and `_determine_intent` returns the regex
fallback's answer. -/
theorem C6_label_validation_witness :
    (Advisor.classify_with_llm (.ok (str "CLASSIFICATION: Education"))).Sublist
      (Advisor.parse_categories (str "Education")) ∧
    (str "Education") ∈ Advisor.valid_categories ∧
    GoalPlanning.determine_intent_with_llm
        (.ok (str "It is goal_status or create_goal."))
      = some (str "create_goal") ∧
    GoalPlanning.determine_intent (.ok (str "no matching intent here"))
        (fun _ => str "general_goal_query") (str "help me")
      = str "general_goal_query" :=
  ⟨(C6_label_validation.1 (str "CLASSIFICATION: Education") (str "Education") (by decide)).2,
   (C6_label_validation.1 (str "CLASSIFICATION: Education") (str "Education") (by decide)).1
     (str "Education") (by decide),
   (C6_label_validation.2.1 (str "It is goal_status or create_goal.")
       (str "create_goal")).mpr
     ⟨by decide,
      ⟨[], [str "modify_goal", str "delete_goal", str "goal_status",
            str "goal_recommendations", str "general_goal_query"],
       by decide, by simp⟩⟩,
   C6_label_validation.2.2.2 (str "no matching intent here") (str "help me")
     (fun _ => str "general_goal_query") (by decide)⟩

/-- C7: `process_query` always produces a string — its `try`-body never
escapes with an error for any collaborator behaviour — and dispatch
isolates per-category failure: with the allocation agent raising and the
education agent succeeding, the response map holds the category-scoped
allocation error string alongside the education content. -/
theorem C7_partial_failure_isolation (o : Advisor.AdvisorOracles)
    (q cid : PyStr) (hist : List ContextMgr.Turn)
    (uctx : GoalPlanning.UserCtx) (e c : PyStr)
    (hAlloc : o.allocationHandle q cid = .error e)
    (hEdu : o.educationContent (Advisor.extract_education_topic q) = .ok c) :
    (∃ s, Advisor.process_query_body o q cid hist = .ok s ∧
          Advisor.process_query o q cid hist = s) ∧
    Advisor.get_agent_responses o [str "Asset Allocation", str "Education"] q cid uctx false
      = [(str "Asset Allocation", Advisor.allocationErrMsg), (str "Education", c)] := by
  constructor
  · exact ⟨_, rfl, rfl⟩
  · have h1 : ((str "Asset Allocation") == (str "Goal Planning")) = false := rfl
    have h2 : ((str "Asset Allocation") == (str "Transaction Analysis")) = false := rfl
    have h3 : ((str "Asset Allocation") == (str "Asset Allocation")) = true := rfl
    have h4 : ((str "Education") == (str "Goal Planning")) = false := rfl
    have h5 : ((str "Education") == (str "Transaction Analysis")) = false := rfl
    have h6 : ((str "Education") == (str "Asset Allocation")) = false := rfl
    have h7 : ((str "Education") == (str "Education")) = true := rfl
    have h8 : ((str "Asset Allocation") == (str "Education")) = false := rfl
    simp only [Advisor.get_agent_responses, Advisor.agent_responses_loop, Bool.false_and,
      Bool.false_eq_true, if_false, h1, h2, h3, h4, h5, h6, h7, hAlloc, hEdu,
      Advisor.dictSet, if_true, h8]

/-- C7 witness: the concrete collaborator set whose allocation agent
raises and whose education agent succeeds. -/
theorem C7_partial_failure_isolation_witness :
    (∃ s, Advisor.process_query_body demoAdvisorOracles (str "hello") (str "CUSTOMER1") []
            = .ok s ∧
          Advisor.process_query demoAdvisorOracles (str "hello") (str "CUSTOMER1") [] = s) ∧
    Advisor.get_agent_responses demoAdvisorOracles
        [str "Asset Allocation", str "Education"] (str "hello") (str "CUSTOMER1")
        ⟨some (str "customer1")⟩ false
      = [(str "Asset Allocation", Advisor.allocationErrMsg),
         (str "Education", str "edu content")] :=
  C7_partial_failure_isolation demoAdvisorOracles (str "hello") (str "CUSTOMER1") []
    ⟨some (str "customer1")⟩ (str "alloc down") (str "edu content") rfl rfl

/-- C8: with fewer than two turns of history, `should_rewrite_query`
answers false immediately and `rewrite_query` returns the query
unchanged with `False`, for every completion-oracle behaviour (so no
completion call can influence the result). -/
theorem C8_no_context_no_rewrite (o : ContextMgr.CtxOracles) (mh : Nat)
    (q : PyStr) (hist : List ContextMgr.Turn) (h : hist.length < 2) :
    ContextMgr.rewrite_query o mh q hist = (q, false) ∧
    ContextMgr.should_rewrite_query o mh q hist = false := by
  have hs : ContextMgr.should_rewrite_query o mh q hist = false := by
    unfold ContextMgr.should_rewrite_query
    simp [h]
  refine ⟨?_, hs⟩
  unfold ContextMgr.rewrite_query
  simp [hs]

/-- C8 witness: the empty history. -/
theorem C8_no_context_no_rewrite_witness :
    ContextMgr.rewrite_query demoCtxOracles 5 (str "hello") [] = (str "hello", false) ∧
    ContextMgr.should_rewrite_query demoCtxOracles 5 (str "hello") [] = false :=
  C8_no_context_no_rewrite demoCtxOracles 5 (str "hello") [] (by decide)

/-- C9: a completion failure inside the Context Manager never escapes:
if the should-rewrite call raises, the answer is true exactly when the
query has at most 3 whitespace-separated words; if the rewrite call
raises, or the stripped rewritten text is empty or case-insensitively
identical to the input, `rewrite_query` returns `(current_query, False)`. -/
theorem C9_failure_degrades (o : ContextMgr.CtxOracles) (mh : Nat)
    (q : PyStr) (hist : List ContextMgr.Turn) (e : PyStr) :
    (o.shouldLLM q (ContextMgr.recent_history mh hist) = .error e → 2 ≤ hist.length →
      ContextMgr.should_rewrite_query o mh q hist = decide ((splitWs q).length ≤ 3)) ∧
    (o.rewriteLLM q (ContextMgr.recent_history mh hist) = .error e →
      ContextMgr.rewrite_query o mh q hist = (q, false)) ∧
    (∀ raw : PyStr, o.rewriteLLM q (ContextMgr.recent_history mh hist) = .ok raw →
      ((stripS raw).isEmpty || (lowerS (stripS raw) == lowerS q)) = true →
      ContextMgr.rewrite_query o mh q hist = (q, false)) := by
  refine ⟨?_, ?_, ?_⟩
  · intro he hlen
    unfold ContextMgr.should_rewrite_query ContextMgr.llm_should_rewrite
    rw [if_neg (by omega), he]
  · intro he
    unfold ContextMgr.rewrite_query
    rcases hs : ContextMgr.should_rewrite_query o mh q hist with _ | _
    · simp
    · simp [he]
  · intro raw hr hcond
    unfold ContextMgr.rewrite_query
    rcases hs : ContextMgr.should_rewrite_query o mh q hist with _ | _
    · simp
    · simp only [Bool.not_true, Bool.false_eq_true, if_false, hr]
      simp [hcond]

/-- C9 witness: failing completion oracles over a two-turn history; the
four-word query is not short enough for the structural heuristic. -/
theorem C9_failure_degrades_witness :
    ContextMgr.should_rewrite_query failingCtxOracles 5 (str "what about that one")
        [⟨str "user", str "hi"⟩, ⟨str "assistant", str "hello"⟩]
      = decide ((splitWs (str "what about that one")).length ≤ 3) ∧
    ContextMgr.rewrite_query failingCtxOracles 5 (str "what about that one")
        [⟨str "user", str "hi"⟩, ⟨str "assistant", str "hello"⟩]
      = (str "what about that one", false) :=
  ⟨(C9_failure_degrades failingCtxOracles 5 (str "what about that one")
      [⟨str "user", str "hi"⟩, ⟨str "assistant", str "hello"⟩] (str "timeout")).1
      rfl (by decide),
   (C9_failure_degrades failingCtxOracles 5 (str "what about that one")
      [⟨str "user", str "hi"⟩, ⟨str "assistant", str "hello"⟩] (str "timeout")).2.1 rfl⟩

/-- C10: `handle_goal_request` with a missing context, a missing
`customer_id` entry or an empty (falsy) customer id returns exactly the
guard message for every collaborator behaviour — no intent
classification, completion call or goal-data access happens — and
otherwise the whole body runs on the lower-cased customer id. -/
theorem C10_customer_guard (o : GoalPlanning.GoalOracles) (req : PyStr) :
    (GoalPlanning.handle_goal_request o req none
      = .ok (.text GoalPlanning.needCustomerMsg)) ∧
    (∀ uc : GoalPlanning.UserCtx, uc.customer_id = none ∨ uc.customer_id = some [] →
      GoalPlanning.handle_goal_request o req (some uc)
        = .ok (.text GoalPlanning.needCustomerMsg)) ∧
    (∀ (uc : GoalPlanning.UserCtx) (cid : PyStr), uc.customer_id = some cid → cid ≠ [] →
      GoalPlanning.handle_goal_request o req (some uc)
        = GoalPlanning.handle_goal_with_id o req (lowerS cid)) := by
  refine ⟨rfl, ?_, ?_⟩
  · intro uc h
    unfold GoalPlanning.handle_goal_request
    rcases h with h | h <;> simp [h]
  · intro uc cid h hne
    unfold GoalPlanning.handle_goal_request
    simp [h, hne]

/-- C10 witness: the guard at a missing context, and the lower-casing at
the mixed-case id `CUSTOMER1`. -/
theorem C10_customer_guard_witness :
    GoalPlanning.handle_goal_request demoGoalOracles (str "create a goal") none
      = .ok (.text GoalPlanning.needCustomerMsg) ∧
    GoalPlanning.handle_goal_request demoGoalOracles (str "create a goal")
        (some ⟨some (str "CUSTOMER1")⟩)
      = GoalPlanning.handle_goal_with_id demoGoalOracles (str "create a goal")
          (lowerS (str "CUSTOMER1")) :=
  ⟨(C10_customer_guard demoGoalOracles (str "create a goal")).1,
   (C10_customer_guard demoGoalOracles (str "create a goal")).2.2
     ⟨some (str "CUSTOMER1")⟩ (str "CUSTOMER1") rfl (by decide)⟩

end PFM
